import Mathlib

/-!
Verification of the Dream Background Remover GIMP plugin against its
natural-language specification.  The Python sources are shallowly embedded:
pure computations become Lean functions, the external collaborators (GIMP,
the Replicate client, the filesystem) become explicit environment records,
and the cross-thread cancellation flag becomes a monotone schedule of
boolean reads at the program points where the source reads it.
-/

namespace DreamBG

/-! ## Settings (src/settings.py) -/

/-- A JSON scalar stored in the settings file: the config uses only strings
and booleans (`api_key`, `mode`, `model` : str; `api_key_visible` : bool). -/
inductive SettingsValue where
  | str (s : String)
  | bool (b : Bool)
deriving DecidableEq, Repr

/-- A JSON object, as an association list preserving key order (Python dicts
preserve insertion order, and `load_settings` appends backfilled keys). -/
abbrev SettingsMap := List (String × SettingsValue)

/-- The states the config file can be in when `load_settings` runs:
absent, unreadable (OSError/PermissionError on open), invalid JSON
(json.JSONDecodeError), valid JSON that is not an object (the subsequent
item operations raise, caught by the bare `except Exception`), or a valid
JSON object. -/
inductive ConfigFile where
  | absent
  | unreadable
  | invalidJson
  | validNonObject
  | valid (m : SettingsMap)
deriving DecidableEq, Repr

def DEFAULT_MODEL : String := "851-labs"

def DEFAULT_MODE : String := "layer"

def DEFAULT_API_KEY_VISIBLE : Bool := false

/-- settings.py AVAILABLE_MODELS: short key to full Replicate identifier. -/
def AVAILABLE_MODELS : List (String × String) :=
  [("851-labs",
    "851-labs/background-remover:a029dff38972b5fda4ec5d75d7d1cd25aeff621d2cf4946a41055d7db66b80bc"),
   ("bria", "bria/remove-background")]

/-- settings.py DEFAULT_SETTINGS. -/
def DEFAULT_SETTINGS : SettingsMap :=
  [("api_key", .str ""),
   ("mode", .str DEFAULT_MODE),
   ("api_key_visible", .bool DEFAULT_API_KEY_VISIBLE),
   ("model", .str DEFAULT_MODEL)]

/-- Python dict key access over the association-list model of a JSON
object: the first binding for the key wins. -/
def lookupKey (key : String) : SettingsMap → Option SettingsValue
  | [] => none
  | (k, v) :: rest => if k = key then some v else lookupKey key rest

/-- settings.py `load_settings`: on a valid JSON object, backfill every
missing documented key with its default (file values win); on any read or
parse error, return a fresh copy of the defaults. -/
def load_settings (file : ConfigFile) : SettingsMap :=
  match file with
  | .valid m =>
      m ++ DEFAULT_SETTINGS.filter (fun kv => (lookupKey kv.1 m).isNone)
  | _ => DEFAULT_SETTINGS

/-- settings.py `store_settings` model-normalisation: an unknown model key
falls back to the default with a logged warning. -/
def normalizeModel (model : String) : String :=
  if (AVAILABLE_MODELS.lookup model).isSome then model else DEFAULT_MODEL

/-- settings.py `store_settings`: raises ValueError on an invalid mode
(modelled as `Except.error`), otherwise writes the four keys, with an
unknown model replaced by the default.  The previous file contents are
overwritten. -/
def store_settings (api_key : String) (mode : String) (api_key_visible : Bool)
    (model : String) : Except String ConfigFile :=
  if mode = "layer" ∨ mode = "file" then
    .ok (.valid
      [("api_key", .str api_key),
       ("mode", .str mode),
       ("api_key_visible", .bool api_key_visible),
       ("model", .str (normalizeModel model))])
  else
    .error ("Invalid mode: " ++ mode ++ ". Must be layer or file")

/-- Key access distributes over append, preferring the left list. -/
theorem lookupKey_append (key : String) (l₁ l₂ : SettingsMap) :
    lookupKey key (l₁ ++ l₂) =
      match lookupKey key l₁ with
      | some v => some v
      | none => lookupKey key l₂ := by
  induction l₁ with
  | nil => simp [lookupKey]
  | cons kv rest ih =>
      obtain ⟨k, v⟩ := kv
      by_cases hk : k = key <;> simp [lookupKey, hk, ih]

/-- Helper: a documented default key missing from the stored map is found in
the backfilled result of `load_settings` with its default value. -/
theorem lookup_backfill (mm : SettingsMap) (key : String) (dv : SettingsValue)
    (hmem : (key, dv) ∈ DEFAULT_SETTINGS) (hnone : lookupKey key mm = none) :
    lookupKey key (load_settings (.valid mm)) = some dv := by
  simp only [DEFAULT_SETTINGS, List.mem_cons, List.not_mem_nil, or_false,
    Prod.mk.injEq] at hmem
  rcases hmem with ⟨rfl, rfl⟩ | ⟨rfl, rfl⟩ | ⟨rfl, rfl⟩ | ⟨rfl, rfl⟩ <;>
    · simp only [load_settings, lookupKey_append, hnone]
      by_cases h1 : (lookupKey "api_key" mm).isNone = true <;>
      by_cases h2 : (lookupKey "mode" mm).isNone = true <;>
      by_cases h3 : (lookupKey "api_key_visible" mm).isNone = true <;>
      by_cases h4 : (lookupKey "model" mm).isNone = true <;>
        simp_all [DEFAULT_SETTINGS, List.filter_cons, List.filter_nil,
          lookupKey, hnone]

end DreamBG

/-! ## Theorems: settings claims -/

namespace DreamBG

/-- C7: storing settings and loading them back returns the same four values,
with an unknown model normalised to the default on store; and loading a file
with missing keys backfills each missing key with its documented default. -/
theorem settings_round_trip_and_backfill :
    (∀ (k m : String) (v : Bool) (mdl : String),
      m = "layer" ∨ m = "file" →
      (store_settings k m v mdl).map load_settings =
        .ok [("api_key", .str k), ("mode", .str m),
             ("api_key_visible", .bool v),
             ("model", .str (normalizeModel mdl))])
    ∧ (∀ (mm : SettingsMap) (key : String) (dv : SettingsValue),
        (key, dv) ∈ DEFAULT_SETTINGS → lookupKey key mm = none →
        lookupKey key (load_settings (.valid mm)) = some dv) := by
  constructor
  · intro k m v mdl hm
    simp [store_settings, hm, load_settings, Except.map, DEFAULT_SETTINGS,
      List.filter_cons, List.filter_nil, lookupKey]
  · exact fun mm key dv hmem hnone => lookup_backfill mm key dv hmem hnone

/-- Witness for C7 at a concrete input: an unknown model "no-such" is
normalised to the default on store, and the round trip returns the stored
key, mode and visibility. -/
theorem settings_round_trip_witness :
    (store_settings "secret" "file" true "no-such").map load_settings =
      .ok [("api_key", .str "secret"), ("mode", .str "file"),
           ("api_key_visible", .bool true),
           ("model", .str (normalizeModel "no-such"))] :=
  settings_round_trip_and_backfill.1 "secret" "file" true "no-such" (Or.inr rfl)

/-- C10: `load_settings` is total over config-file states: for every state it
returns a mapping containing all four documented keys, and on every read or
parse failure state it returns exactly the documented defaults. -/
theorem load_settings_total :
    (∀ (file : ConfigFile) (key : String) (dv : SettingsValue),
      (key, dv) ∈ DEFAULT_SETTINGS →
      ∃ v, lookupKey key (load_settings file) = some v)
    ∧ load_settings .absent = DEFAULT_SETTINGS
    ∧ load_settings .unreadable = DEFAULT_SETTINGS
    ∧ load_settings .invalidJson = DEFAULT_SETTINGS
    ∧ load_settings .validNonObject = DEFAULT_SETTINGS := by
  refine ⟨?_, rfl, rfl, rfl, rfl⟩
  intro file key dv hmem
  have hdefault : lookupKey key DEFAULT_SETTINGS = some dv := by
    simp only [DEFAULT_SETTINGS, List.mem_cons, List.not_mem_nil, or_false,
      Prod.mk.injEq] at hmem
    rcases hmem with ⟨rfl, rfl⟩ | ⟨rfl, rfl⟩ | ⟨rfl, rfl⟩ | ⟨rfl, rfl⟩ <;>
      simp [DEFAULT_SETTINGS, lookupKey]
  cases file with
  | valid m =>
      cases hlk : lookupKey key m with
      | some v =>
          refine ⟨v, ?_⟩
          simp [load_settings, lookupKey_append, hlk]
      | none =>
          exact ⟨dv, lookup_backfill m key dv hmem hlk⟩
  | absent => exact ⟨dv, hdefault⟩
  | unreadable => exact ⟨dv, hdefault⟩
  | invalidJson => exact ⟨dv, hdefault⟩
  | validNonObject => exact ⟨dv, hdefault⟩

/-- Witness for C10 at a concrete input: loading a file that holds only an
api key still yields a mapping containing the "model" key. -/
theorem load_settings_total_witness :
    ∃ v, lookupKey "model" (load_settings (.valid [("api_key", .str "k")])) =
      some v :=
  load_settings_total.1 (.valid [("api_key", .str "k")]) "model"
    (.str DEFAULT_MODEL) (by simp [DEFAULT_SETTINGS])

end DreamBG

namespace DreamBG

/-! ## Remote Inference Client (src/api.py) -/

/-- Byte buffers as lists of byte values. -/
abbrev Bytes := List Nat

/-- An in-memory decoded raster image (GdkPixbuf.Pixbuf): only the
dimensions and the alpha flag matter to this plugin. -/
structure Pixbuf where
  width : Nat
  height : Nat
  hasAlpha : Bool
deriving DecidableEq, Repr

/-- A GIMP drawable, as the client sees it: an opaque source layer. -/
structure Drawable where
  name : String
deriving DecidableEq, Repr

/-- The fixed progress checkpoints of api.py (PROGRESS_PREPARE 0.1,
PROGRESS_UPLOAD 0.3, PROGRESS_PROCESS 0.7, PROGRESS_DOWNLOAD 0.9,
PROGRESS_COMPLETE 1.0). -/
inductive Checkpoint where
  | prepare
  | upload
  | process
  | download
  | complete
deriving DecidableEq, Repr

/-- Position of each checkpoint in the sequence of api.py. -/
def Checkpoint.idx : Checkpoint → Nat
  | .prepare => 0
  | .upload => 1
  | .process => 2
  | .download => 3
  | .complete => 4

/-- The progress fraction reported at each checkpoint, in tenths. -/
def Checkpoint.tenths : Checkpoint → Nat
  | .prepare => 1
  | .upload => 3
  | .process => 7
  | .download => 9
  | .complete => 10

/-- Outcome of `self.client.run(model_name, input=...)`.  `ok output`
models a normal return: `output = none` is a falsy output handle (the
`if not output` branch), `output = some chunks` is a truthy iterable
stream of byte chunks — truthy even when it yields zero chunks, as a
stream object's truthiness does not depend on its contents. -/
inductive RunResult where
  | ok (output : Option (List Bytes))
  | modelError (msg : String) (logs : Option String)
  | replicateError (msg : String)
  | raised (msg : String)
deriving DecidableEq, Repr

/-- The external collaborators of one `remove_background` call:
the result of `export_drawable_to_bytes` (`none` models a `None` return),
the outcome of the remote invocation, and the pixbuf decoder
(`_bytes_to_pixbuf`, which catches its own exceptions and returns `None`
on failure). -/
structure ApiEnv where
  exportResult : Option Bytes
  run : RunResult
  decode : Bytes → Option Pixbuf

/-- Observable effects of one `remove_background` call, in order. -/
inductive ApiEvent where
  | checkpoint (c : Checkpoint)
  | exported
  | tempFileCreated
  | tempFileDeleted
  | ranModel (name : String)
  | joinedChunks
  | decoded
deriving DecidableEq, Repr

/-- `progress_callback and not progress_callback(...)`: a missing callback
never cancels. -/
def checkCont (progress : Option (Checkpoint → Bool)) (c : Checkpoint) :
    Bool :=
  match progress with
  | none => true
  | some cb => cb c

/-- The checkpoint event emitted when a callback is present. -/
def cpEvt (progress : Option (Checkpoint → Bool)) (c : Checkpoint) :
    List ApiEvent :=
  match progress with
  | none => []
  | some _ => [.checkpoint c]

def noDrawableMsg : String := "No drawable provided"

def noModelMsg : String := "No model specified"

def cancelledMsg : String := "Operation cancelled"

def exportFailMsg : String := "Failed to export image data"

def noOutputMsg : String := "No output received from API"

def noImageDataMsg : String := "No image data in API response"

def decodeFailMsg : String := "Failed to convert result to image"

def unexpectedErrorMsg (e : String) : String := "Unexpected error: " ++ e

def replicateErrorMsg (e : String) : String := "Replicate API error: " ++ e

/-- ModelError formatting: append the prediction logs when present. -/
def modelErrorMsg (e : String) (logs : Option String) : String :=
  match logs with
  | none => "Model error: " ++ e
  | some l => "Model error: " ++ e ++ "\nLogs: " ++ l

/-- api.py `ReplicateAPI.remove_background`, with its event trace.  The
`finally` block deletes the staging temp file on every exit path after it
was created. -/
def remove_background (env : ApiEnv) (drawable : Option Drawable)
    (model_name : String) (progress : Option (Checkpoint → Bool)) :
    (Option Pixbuf × Option String) × List ApiEvent :=
  if drawable.isNone then ((none, some noDrawableMsg), [])
  else if model_name = "" then ((none, some noModelMsg), [])
  else
    let t0 := cpEvt progress .prepare
    if checkCont progress .prepare = false then
      ((none, some cancelledMsg), t0)
    else
      match env.exportResult with
      | none => ((none, some exportFailMsg), t0 ++ [.exported])
      | some bs =>
        if bs = [] then ((none, some exportFailMsg), t0 ++ [.exported])
        else
          let t1 := t0 ++ [.exported, .tempFileCreated]
          let t2 := t1 ++ cpEvt progress .upload
          if checkCont progress .upload = false then
            ((none, some cancelledMsg), t2 ++ [.tempFileDeleted])
          else
            match env.run with
            | .modelError msg logs =>
                ((none, some (modelErrorMsg msg logs)),
                  t2 ++ [.ranModel model_name, .tempFileDeleted])
            | .replicateError msg =>
                ((none, some (replicateErrorMsg msg)),
                  t2 ++ [.ranModel model_name, .tempFileDeleted])
            | .raised msg =>
                ((none, some (unexpectedErrorMsg msg)),
                  t2 ++ [.ranModel model_name, .tempFileDeleted])
            | .ok output =>
              let t3 := t2 ++ [.ranModel model_name] ++ cpEvt progress .process
              if checkCont progress .process = false then
                ((none, some cancelledMsg), t3 ++ [.tempFileDeleted])
              else
                match output with
                | none =>
                    ((none, some noOutputMsg), t3 ++ [.tempFileDeleted])
                | some chunks =>
                  let t4 := t3 ++ cpEvt progress .download
                  if checkCont progress .download = false then
                    ((none, some cancelledMsg), t4 ++ [.tempFileDeleted])
                  else
                    let result_bytes := chunks.flatten
                    let t5 := t4 ++ [.joinedChunks]
                    if result_bytes = [] then
                      ((none, some noImageDataMsg), t5 ++ [.tempFileDeleted])
                    else
                      match env.decode result_bytes with
                      | none =>
                          ((none, some decodeFailMsg),
                            t5 ++ [.decoded, .tempFileDeleted])
                      | some pb =>
                          ((some pb, none),
                            t5 ++ [.decoded] ++ cpEvt progress .complete
                              ++ [.tempFileDeleted])

def isTempCreatedEvt : ApiEvent → Bool
  | .checkpoint _ => false
  | .exported => false
  | .tempFileCreated => true
  | .tempFileDeleted => false
  | .ranModel _ => false
  | .joinedChunks => false
  | .decoded => false

def isTempDeletedEvt : ApiEvent → Bool
  | .checkpoint _ => false
  | .exported => false
  | .tempFileCreated => false
  | .tempFileDeleted => true
  | .ranModel _ => false
  | .joinedChunks => false
  | .decoded => false

/-- Number of staging temp files a trace creates. -/
def tempCreated (t : List ApiEvent) : Nat := t.countP isTempCreatedEvt

/-- Number of staging temp file deletions in a trace. -/
def tempDeleted (t : List ApiEvent) : Nat := t.countP isTempDeletedEvt

end DreamBG

/-! ## Theorems: Remote Inference Client claims -/

namespace DreamBG

/-- C8: when the remote invocation succeeds but the streamed output yields
zero chunks (so the concatenated result is zero bytes), the result is
(null, "No image data in API response"); when the call produces no output
handle at all, the distinct message "No output received from API" is
returned instead. -/
theorem empty_stream_message :
    (∀ (env : ApiEnv) (d : Drawable) (mn : String)
        (cb : Checkpoint → Bool) (bs : Bytes),
      mn ≠ "" → (∀ c, cb c = true) →
      env.exportResult = some bs → bs ≠ [] →
      env.run = .ok (some []) →
      (remove_background env (some d) mn (some cb)).1 =
        (none, some noImageDataMsg))
    ∧ (∀ (env : ApiEnv) (d : Drawable) (mn : String)
        (cb : Checkpoint → Bool) (bs : Bytes),
      mn ≠ "" → (∀ c, cb c = true) →
      env.exportResult = some bs → bs ≠ [] →
      env.run = .ok none →
      (remove_background env (some d) mn (some cb)).1 =
        (none, some noOutputMsg))
    ∧ noImageDataMsg ≠ noOutputMsg := by
  refine ⟨?_, ?_, by simp [noImageDataMsg, noOutputMsg]⟩ <;>
    · intro env d mn cb bs hmn hcb hexp hbs hrun
      simp [remove_background, checkCont, cpEvt, hmn, hcb, hexp, hbs, hrun]

/-- Witness for C8 at a concrete input: a truthy output stream of zero
chunks yields the "No image data in API response" result. -/
theorem empty_stream_message_witness :
    (remove_background ⟨some [7], .ok (some []), fun _ => none⟩
        (some ⟨"layer1"⟩) "bria/remove-background" (some (fun _ => true))).1 =
      (none, some noImageDataMsg) :=
  empty_stream_message.1 ⟨some [7], .ok (some []), fun _ => none⟩
    ⟨"layer1"⟩ "bria/remove-background" (fun _ => true) [7]
    (by simp) (fun _ => rfl) rfl (by simp) rfl

/-- C4 (amended): every call to `remove_background` creates at most one
staging temp file — exactly as many deletions as creations occur, so on
every exit path (success, failure or cancellation) no staging temp file
created by the call exists after the call returns.  Early exits (a
cancellation at the preparing checkpoint, a missing drawable or model, a
failed export) create none. -/
theorem temp_file_cleanup :
    ∀ (env : ApiEnv) (drawable : Option Drawable) (mn : String)
      (progress : Option (Checkpoint → Bool)),
      tempCreated (remove_background env drawable mn progress).2 ≤ 1 ∧
      tempCreated (remove_background env drawable mn progress).2 =
        tempDeleted (remove_background env drawable mn progress).2 := by
  intro env drawable mn progress
  cases progress <;>
    · unfold remove_background
      repeat' split
      all_goals
        simp_all [tempCreated, tempDeleted, cpEvt, checkCont,
          isTempCreatedEvt, isTempDeletedEvt, List.countP_append,
          List.countP_cons, List.countP_nil]
      all_goals repeat' split
      all_goals
        simp_all [isTempCreatedEvt, isTempDeletedEvt, List.countP_append,
          List.countP_cons, List.countP_nil]

/-- C2: if the progress callback answers true strictly before checkpoint k
and false at k (k one of preparing 0.1, uploading 0.3, processing 0.7,
downloading 0.9), and the stages before k succeed, then `remove_background`
returns (null, "Operation cancelled"), invokes no checkpoint after k, and
performs no later work of the sequence: no chunk concatenation, no decode,
no remote invocation before the processing checkpoint, and not even the
export or the staging temp file when cancelled at the preparing
checkpoint. -/
theorem cancellation_at_checkpoint :
    ∀ (env : ApiEnv) (d : Drawable) (mn : String)
      (cb : Checkpoint → Bool) (k : Checkpoint),
      k ≠ .complete →
      (∀ j : Checkpoint, j.idx < k.idx → cb j = true) →
      cb k = false →
      mn ≠ "" →
      (1 ≤ k.idx → ∃ bs, env.exportResult = some bs ∧ bs ≠ []) →
      (2 ≤ k.idx → ∃ o, env.run = .ok o) →
      (3 ≤ k.idx → ∃ chunks, env.run = .ok (some chunks)) →
      (remove_background env (some d) mn (some cb)).1 =
          (none, some cancelledMsg)
        ∧ (∀ j : Checkpoint,
            ApiEvent.checkpoint j ∈
              (remove_background env (some d) mn (some cb)).2 →
            j.idx ≤ k.idx)
        ∧ ApiEvent.joinedChunks ∉
            (remove_background env (some d) mn (some cb)).2
        ∧ ApiEvent.decoded ∉ (remove_background env (some d) mn (some cb)).2
        ∧ (k.idx < 2 → ∀ m, ApiEvent.ranModel m ∉
            (remove_background env (some d) mn (some cb)).2)
        ∧ (k = .prepare →
            ApiEvent.exported ∉ (remove_background env (some d) mn (some cb)).2
            ∧ ApiEvent.tempFileCreated ∉
                (remove_background env (some d) mn (some cb)).2) := by
  intro env d mn cb k hk hbefore hcancel hmn hexp hrun hout
  cases k with
  | prepare =>
      have h : remove_background env (some d) mn (some cb) =
          ((none, some cancelledMsg), [.checkpoint .prepare]) := by
        simp [remove_background, checkCont, cpEvt, hmn, hcancel]
      rw [h]
      refine ⟨rfl, ?_, by simp, by simp, by simp, by simp⟩
      intro j hj
      cases j <;> simp_all [Checkpoint.idx]
  | upload =>
      have hp : cb .prepare = true := hbefore .prepare (by decide)
      obtain ⟨bs, hexpEq, hbs⟩ := hexp (by decide)
      have h : remove_background env (some d) mn (some cb) =
          ((none, some cancelledMsg),
            [.checkpoint .prepare, .exported, .tempFileCreated,
             .checkpoint .upload, .tempFileDeleted]) := by
        simp [remove_background, checkCont, cpEvt, hmn, hp, hcancel,
          hexpEq, hbs]
      rw [h]
      refine ⟨rfl, ?_, by simp, by simp, by simp, by simp⟩
      intro j hj
      cases j <;> simp_all [Checkpoint.idx]
  | process =>
      have hp : cb .prepare = true := hbefore .prepare (by decide)
      have hu : cb .upload = true := hbefore .upload (by decide)
      obtain ⟨bs, hexpEq, hbs⟩ := hexp (by decide)
      obtain ⟨o, hrunEq⟩ := hrun (by decide)
      have h : remove_background env (some d) mn (some cb) =
          ((none, some cancelledMsg),
            [.checkpoint .prepare, .exported, .tempFileCreated,
             .checkpoint .upload, .ranModel mn, .checkpoint .process,
             .tempFileDeleted]) := by
        simp [remove_background, checkCont, cpEvt, hmn, hp, hu, hcancel,
          hexpEq, hbs, hrunEq]
      rw [h]
      refine ⟨rfl, ?_, by simp, by simp, by simp [Checkpoint.idx], by simp⟩
      intro j hj
      cases j <;> simp_all [Checkpoint.idx]
  | download =>
      have hp : cb .prepare = true := hbefore .prepare (by decide)
      have hu : cb .upload = true := hbefore .upload (by decide)
      have hpr : cb .process = true := hbefore .process (by decide)
      obtain ⟨bs, hexpEq, hbs⟩ := hexp (by decide)
      obtain ⟨chunks, hrunEq⟩ := hout (by decide)
      have h : remove_background env (some d) mn (some cb) =
          ((none, some cancelledMsg),
            [.checkpoint .prepare, .exported, .tempFileCreated,
             .checkpoint .upload, .ranModel mn, .checkpoint .process,
             .checkpoint .download, .tempFileDeleted]) := by
        simp [remove_background, checkCont, cpEvt, hmn, hp, hu, hpr,
          hcancel, hexpEq, hbs, hrunEq]
      rw [h]
      refine ⟨rfl, ?_, by simp, by simp, by simp [Checkpoint.idx], by simp⟩
      intro j hj
      cases j <;> simp_all [Checkpoint.idx]
  | complete => exact absurd rfl hk

/-- Witness for C2 at a concrete input: cancelling at the uploading
checkpoint yields the cancelled result. -/
theorem cancellation_at_checkpoint_witness :
    (remove_background ⟨some [7], .ok (some [[1]]), fun _ => none⟩
        (some ⟨"layer1"⟩) "bria/remove-background"
        (some (fun c => c.idx < 1))).1 = (none, some cancelledMsg) :=
  (cancellation_at_checkpoint ⟨some [7], .ok (some [[1]]), fun _ => none⟩
    ⟨"layer1"⟩ "bria/remove-background" (fun c => decide (c.idx < 1)) .upload
    (by decide) (fun j hj => by cases j <;> simp_all [Checkpoint.idx])
    (by decide) (by simp)
    (fun _ => ⟨[7], rfl, by simp⟩)
    (fun h => absurd h (by decide))
    (fun h => absurd h (by decide))).1

/-- Counterexample to C4 as stated: a call cancelled at the preparing
checkpoint creates no staging temp file at all, refuting "every call
creates exactly one temporary staging file". -/
theorem temp_file_not_always_created :
    tempCreated (remove_background
        ⟨some [7], .ok (some [[1]]), fun _ => none⟩
        (some ⟨"layer1"⟩) "bria/remove-background"
        (some (fun _ => false))).2 ≠ 1 := by
  decide

end DreamBG

namespace DreamBG

/-! ## Result Reconciler (src/integrator.py) -/

/-- GdkPixbuf interpolation modes; create_scaled_layer uses BILINEAR. -/
inductive InterpType where
  | nearest
  | tiles
  | bilinear
  | hyper
deriving DecidableEq, Repr

/-- A GIMP layer: a name and its raster content. -/
structure Layer where
  name : String
  content : Pixbuf
deriving DecidableEq, Repr

/-- A GIMP image: canvas dimensions, layer stack (head = top) and the
selected layers. -/
structure GimpImage where
  width : Nat
  height : Nat
  layers : List Layer
  selectedLayers : List Layer
deriving DecidableEq, Repr

/-- `GdkPixbuf.Pixbuf.scale_simple`: a pixbuf of exactly the requested
dimensions; the alpha flag is preserved. -/
def Pixbuf.scale_simple (p : Pixbuf) (w h : Nat) (_ : InterpType) : Pixbuf :=
  { width := w, height := h, hasAlpha := p.hasAlpha }

/-- `GdkPixbuf.Pixbuf.add_alpha`: same dimensions, alpha added. -/
def Pixbuf.add_alpha (p : Pixbuf) : Pixbuf :=
  { width := p.width, height := p.height, hasAlpha := true }

/-- Observable external-editor operations of create_scaled_layer. -/
inductive GimpEvent where
  | scaled (fromW fromH toW toH : Nat) (interp : InterpType)
  | alphaAdded
  | inserted (position : Nat)
  | selectedSet
deriving DecidableEq, Repr

def MAX_LAYER_NAME_LENGTH : Nat := 64

/-- integrator.py `_truncate_layer_name`. -/
def _truncate_layer_name (name : String) : String :=
  if name = "" then "Background Removed"
  else if name.length ≤ MAX_LAYER_NAME_LENGTH then name
  else (name.take (MAX_LAYER_NAME_LENGTH - 3)) ++ "..."

/-- integrator.py `create_scaled_layer`: scale the pixbuf (bilinear) to the
image canvas when dimensions differ, add an alpha channel when absent,
insert the new layer at the top of the stack (position 0) and select it.
Returns the created layer and the updated image, plus the trace of editor
operations. -/
def create_scaled_layer (image : Option GimpImage) (pixbuf : Option Pixbuf)
    (layer_name : String) :
    Option (Layer × GimpImage) × List GimpEvent :=
  match image, pixbuf with
  | none, _ => (none, [])
  | some _, none => (none, [])
  | some img, some pb =>
    let scaled := pb.width ≠ img.width ∨ pb.height ≠ img.height
    let pb1 := if scaled then pb.scale_simple img.width img.height .bilinear
      else pb
    let ev1 : List GimpEvent := if scaled then
        [.scaled pb.width pb.height img.width img.height .bilinear]
      else []
    let pb2 := if pb1.hasAlpha then pb1 else pb1.add_alpha
    let ev2 : List GimpEvent := if pb1.hasAlpha then [] else [.alphaAdded]
    let l : Layer := ⟨_truncate_layer_name layer_name, pb2⟩
    let img2 : GimpImage :=
      { img with layers := l :: img.layers, selectedLayers := [l] }
    (some (l, img2), ev1 ++ ev2 ++ [.inserted 0, .selectedSet])

end DreamBG

namespace DreamBG

/-- C9: in layer mode, for a non-null raster and non-null target document
whose dimensions differ, create_scaled_layer resamples the raster with
bilinear interpolation to exactly the canvas dimensions, ensures an alpha
channel, inserts the resulting layer at the top of the stack (position 0)
and selects it. -/
theorem scaled_layer_resample_insert_select :
    ∀ (img : GimpImage) (pb : Pixbuf) (name : String),
      pb.width ≠ img.width ∨ pb.height ≠ img.height →
      ∃ l img2,
        (create_scaled_layer (some img) (some pb) name).1 = some (l, img2)
        ∧ l.content.width = img.width
        ∧ l.content.height = img.height
        ∧ l.content.hasAlpha = true
        ∧ GimpEvent.scaled pb.width pb.height img.width img.height .bilinear ∈
            (create_scaled_layer (some img) (some pb) name).2
        ∧ img2.layers = l :: img.layers
        ∧ img2.selectedLayers = [l]
        ∧ GimpEvent.inserted 0 ∈ (create_scaled_layer (some img) (some pb) name).2
        ∧ GimpEvent.selectedSet ∈ (create_scaled_layer (some img) (some pb) name).2 := by
  intro img pb name hdiff
  refine ⟨⟨_truncate_layer_name name, ⟨img.width, img.height, true⟩⟩,
    ⟨img.width, img.height,
      ⟨_truncate_layer_name name, ⟨img.width, img.height, true⟩⟩ :: img.layers,
      [⟨_truncate_layer_name name, ⟨img.width, img.height, true⟩⟩]⟩, ?_⟩
  by_cases ha : pb.hasAlpha <;>
    simp [create_scaled_layer, Pixbuf.scale_simple, Pixbuf.add_alpha,
      hdiff, ha]

/-- Witness for C9 at the spec scenario: a 100 by 100 raster against a
200 by 200 canvas is resampled to 200 by 200 before insertion. -/
theorem scaled_layer_resample_insert_select_witness :
    ∃ l img2,
      (create_scaled_layer (some ⟨200, 200, [], []⟩)
          (some ⟨100, 100, false⟩) "src").1 = some (l, img2)
      ∧ l.content.width = 200
      ∧ l.content.height = 200
      ∧ l.content.hasAlpha = true
      ∧ GimpEvent.scaled 100 100 200 200 .bilinear ∈
          (create_scaled_layer (some ⟨200, 200, [], []⟩)
            (some ⟨100, 100, false⟩) "src").2
      ∧ img2.layers = l :: ([] : List Layer)
      ∧ img2.selectedLayers = [l]
      ∧ GimpEvent.inserted 0 ∈
          (create_scaled_layer (some ⟨200, 200, [], []⟩)
            (some ⟨100, 100, false⟩) "src").2
      ∧ GimpEvent.selectedSet ∈
          (create_scaled_layer (some ⟨200, 200, [], []⟩)
            (some ⟨100, 100, false⟩) "src").2 :=
  scaled_layer_resample_insert_select ⟨200, 200, [], []⟩ ⟨100, 100, false⟩
    "src" (by simp)

end DreamBG

namespace DreamBG

/-! ## Worker Orchestrator (src/dialog_threads.py)

The `_cancel_requested` flag is written by the UI thread and read by the
worker at fixed program points.  A run is modelled against a schedule
`sched : Nat → Bool` giving the value of the flag at each read point, in
program order: 0 = worker entry (line 69), 1 = the except-clause read if
the `ReplicateAPI` constructor raises, 2 = the pre-call read (line 83),
3..7 = the progress-callback reads at the five checkpoints (the read in
the except clause when the client call itself raises also happens at
time 3, directly after point 2), 8 = the post-call read (line 92),
9 = the re-check inside `_handle_background_removed` (line 109) on the
main thread.  A schedule is monotone when the flag, once set, stays set. -/

/-- Terminal resolution of one request, as the orchestrator delivers it.
`swallowed` is the path where the client raised after cancellation was
requested: the except clause schedules nothing at all — no handler runs. -/
inductive Outcome where
  | succeeded (msg : String)
  | failed (msg : String)
  | cancelled
  | swallowed
deriving DecidableEq, Repr

/-- What one request run leaves behind: the outcome, whether a
reconciliation operation actually ran, the callback deliveries, and the
final `_processing` flag. -/
structure DispatchResult where
  outcome : Outcome
  reconInvoked : Bool
  errorDelivered : Option String
  successDelivered : Bool
  finalProcessing : Bool
deriving DecidableEq, Repr

/-- `_handle_cancelled`: resets the flags, re-enables the UI, delivers no
callback. -/
def cancelledResult : DispatchResult :=
  ⟨.cancelled, false, none, false, false⟩

/-- The swallow path (exception caught while `_cancel_requested` was set):
nothing is scheduled, so `_processing` is never reset. -/
def swallowedResult : DispatchResult :=
  ⟨.swallowed, false, none, false, true⟩

/-- `_handle_error`: resets the flags, re-enables the UI, delivers the
error callback. -/
def errorResult (m : String) : DispatchResult :=
  ⟨.failed m, false, some m, false, false⟩

/-- Outcome of the Python-level call of the client from the worker:
a normal return of `(pixbuf, error)` or an exception. -/
inductive CallOutcome where
  | returned (pixbuf : Option Pixbuf) (err : Option String)
  | raised (msg : String)
deriving DecidableEq, Repr

/-- Outcome of `integrator.create_new_image_with_layer`, which catches its
own exceptions and returns `None` on any failure. -/
structure ReconEnv where
  createNewImage : Option GimpImage

def noImageReceivedMsg : String := "No image data received from API"

def failedNewImageMsg : String := "Failed to create new image file"

def newImageSuccessMsg : String :=
  "New image created with background removed!"

def processResultErrMsg (e : String) : String :=
  "Error processing result: " ++ e

/-- str(AttributeError) for the dangling reference at
dialog_threads.py:132: `integrator` has no attribute
`create_background_removed_layer` (the module defines
`create_scaled_layer` instead). -/
def attrErrMsg : String :=
  "module integrator has no attribute create_background_removed_layer"

/-- str(TypeError) for the call at dialog_threads.py:87-90, which omits
the required positional argument `model_name` of
`ReplicateAPI.remove_background`. -/
def missingModelArgMsg : String :=
  "remove_background() missing 1 required positional argument: model_name"

def apiKeyRequiredMsg : String := "API key is required"

/-- Python `not api_key.strip()`: the key is blank when every character is
whitespace (or the string is empty). -/
def isBlankKey (s : String) : Bool := s.toList.all (fun c => c.isWhitespace)

def noLayerMsg : String := "No layer available for background removal"

/-- dialog_threads.py `_handle_background_removed` (main thread), given the
value of `_cancel_requested` at its re-check (line 109).  In "file" mode it
calls `integrator.create_new_image_with_layer`; in any other mode the
attribute access `integrator.create_background_removed_layer` raises
AttributeError, caught by the handler's try block and reported through
`_handle_error`. -/
def handleBackgroundRemoved (ch : Bool) (_pb : Pixbuf) (mode : String)
    (recon : ReconEnv) : DispatchResult :=
  if ch then cancelledResult
  else if mode = "file" then
    match recon.createNewImage with
    | none =>
        ⟨.failed failedNewImageMsg, true, some failedNewImageMsg, false,
          false⟩
    | some _ =>
        ⟨.succeeded newImageSuccessMsg, true, none, true, false⟩
  else
    ⟨.failed (processResultErrMsg attrErrMsg), false,
      some (processResultErrMsg attrErrMsg), false, false⟩

/-- The worker's handling of the client call outcome
(dialog_threads.py lines 92-104) followed by the scheduled main-thread
handler: `cc` is the cancel flag at the except-clause read, `cpc` at the
post-call read (line 92), `ch` at the handler re-check (line 109). -/
def resolveClientOutcome (cc cpc ch : Bool) (call : CallOutcome)
    (mode : String) (recon : ReconEnv) : DispatchResult :=
  match call with
  | .raised m => if cc then swallowedResult else errorResult m
  | .returned pb err =>
    if cpc then cancelledResult
    else
      match pb with
      | some p => handleBackgroundRemoved ch p mode recon
      | none =>
          errorResult
            (match err with
             | some e => if e = "" then noImageReceivedMsg else e
             | none => noImageReceivedMsg)

/-- The argument list the worker actually supplies at
dialog_threads.py:87-90: `drawable` and `progress_callback` by keyword,
and no `model_name`. -/
structure RBCallArgs where
  drawable : Option Drawable
  model_name : Option String
  progress_callback : Option (Checkpoint → Bool)

/-- Python call semantics for `ReplicateAPI.remove_background`: a call
missing the required positional argument `model_name` raises TypeError
before the function body runs. -/
def callRemoveBackground (env : ApiEnv) (args : RBCallArgs) :
    CallOutcome × List ApiEvent :=
  match args.model_name with
  | none => (.raised missingModelArgMsg, [])
  | some mn =>
      let r := remove_background env args.drawable mn args.progress_callback
      (.returned r.1.1 r.1.2, r.2)

/-- The keyword arguments of dialog_threads.py:87-90: `model_name` is not
supplied. -/
def workerCallArgs (drawable : Option Drawable)
    (cb : Checkpoint → Bool) : RBCallArgs :=
  { drawable := drawable, model_name := none, progress_callback := some cb }

/-- dialog_threads.py `_background_removal_worker` under a cancellation
read schedule.  The progress callback returns false exactly when the
cancel flag is set at its read point. -/
def background_removal_worker (sched : Nat → Bool) (env : ApiEnv)
    (api_key : String) (mode : String) (drawable : Option Drawable)
    (recon : ReconEnv) : DispatchResult × List ApiEvent :=
  if sched 0 then (cancelledResult, [])
  else if isBlankKey api_key then
    (if sched 1 then swallowedResult else errorResult apiKeyRequiredMsg, [])
  else if sched 2 then (cancelledResult, [])
  else
    let cb : Checkpoint → Bool := fun c => !sched (3 + c.idx)
    let r := callRemoveBackground env (workerCallArgs drawable cb)
    (resolveClientOutcome (sched 3) (sched 8) (sched 9) r.1 mode recon, r.2)

/-- The per-dialog shared flag pair. -/
structure ThreadsState where
  processing : Bool
  cancelRequested : Bool
deriving DecidableEq, Repr

/-- What a call to `start_background_removal_thread` leaves behind:
the flag pair, whether a worker thread was spawned, and the error
callback delivery, if any. -/
structure StartOutcome where
  state : ThreadsState
  threadSpawned : Bool
  errorDelivered : Option String
deriving DecidableEq, Repr

/-- dialog_threads.py `start_background_removal_thread`: a pure no-op while
already processing; with no drawable bound it runs `_handle_error`, which
resets both flags, re-enables the UI and invokes the error callback when
one is registered; otherwise it sets the flags, disables the UI and spawns
the worker. -/
def start_background_removal_thread (st : ThreadsState)
    (drawable : Option Drawable) (hasOnError : Bool) : StartOutcome :=
  if st.processing then ⟨st, false, none⟩
  else
    match drawable with
    | none =>
        ⟨⟨false, false⟩, false, if hasOnError then some noLayerMsg else none⟩
    | some _ => ⟨⟨true, false⟩, true, none⟩

end DreamBG

namespace DreamBG

def Outcome.isSucceeded : Outcome → Bool
  | .succeeded _ => true
  | .failed _ => false
  | .cancelled => false
  | .swallowed => false

def Outcome.isFailed : Outcome → Bool
  | .succeeded _ => false
  | .failed _ => true
  | .cancelled => false
  | .swallowed => false

/-- Helper: a Succeeded outcome of the result dispatch forces a non-null
pixbuf, no cancellation at either read, file mode and a successful
image creation. -/
theorem resolve_succeeded_inv (cc cpc ch : Bool) (call : CallOutcome)
    (mode : String) (recon : ReconEnv)
    (h : (resolveClientOutcome cc cpc ch call mode recon).outcome.isSucceeded
      = true) :
    (∃ pb err, call = .returned (some pb) err) ∧ cpc = false ∧ ch = false ∧
      mode = "file" ∧ ∃ i, recon.createNewImage = some i := by
  cases call with
  | raised s =>
      cases cc <;>
        simp_all [resolveClientOutcome, swallowedResult, errorResult,
          Outcome.isSucceeded]
  | returned pb err =>
      cases cpc with
      | true =>
          simp_all [resolveClientOutcome, cancelledResult,
            Outcome.isSucceeded]
      | false =>
          cases pb with
          | none =>
              simp_all [resolveClientOutcome, errorResult,
                Outcome.isSucceeded]
          | some p =>
              cases ch with
              | true =>
                  simp_all [resolveClientOutcome, handleBackgroundRemoved,
                    cancelledResult, Outcome.isSucceeded]
              | false =>
                  by_cases hmode : mode = "file"
                  · cases hrc : recon.createNewImage with
                    | none =>
                        simp_all [resolveClientOutcome,
                          handleBackgroundRemoved, Outcome.isSucceeded]
                    | some i =>
                        exact ⟨⟨p, err, rfl⟩, rfl, rfl, hmode, i, rfl⟩
                  · simp_all [resolveClientOutcome, handleBackgroundRemoved,
                      Outcome.isSucceeded]

end DreamBG

namespace DreamBG

/-- C3: the Succeeded terminal state is reachable only via a non-null
decoded image followed by successful reconciliation; a null decoded image,
or a failed or raising reconciliation, resolves to Failed (when no
cancellation intervenes) and never to Succeeded. -/
theorem succeeded_only_via_reconciliation :
    ∀ (cc cpc ch : Bool) (call : CallOutcome) (mode : String)
      (recon : ReconEnv),
      ((resolveClientOutcome cc cpc ch call mode recon).outcome.isSucceeded
          = true →
        (∃ pb err, call = .returned (some pb) err) ∧ mode = "file" ∧
          ∃ i, recon.createNewImage = some i)
      ∧ (∀ err, call = .returned none err →
          (resolveClientOutcome cc cpc ch call mode recon).outcome.isSucceeded
            = false
          ∧ (cpc = false →
              (resolveClientOutcome cc cpc ch call mode recon).outcome.isFailed
                = true))
      ∧ (∀ pb err, call = .returned (some pb) err →
          ¬(mode = "file" ∧ ∃ i, recon.createNewImage = some i) →
          (resolveClientOutcome cc cpc ch call mode recon).outcome.isSucceeded
            = false
          ∧ (cpc = false → ch = false →
              (resolveClientOutcome cc cpc ch call mode recon).outcome.isFailed
                = true)) := by
  intro cc cpc ch call mode recon
  refine ⟨?_, ?_, ?_⟩
  · intro h
    obtain ⟨hpb, _, _, hmode, hi⟩ :=
      resolve_succeeded_inv cc cpc ch call mode recon h
    exact ⟨hpb, hmode, hi⟩
  · rintro err rfl
    constructor
    · cases cpc <;>
        simp [resolveClientOutcome, cancelledResult, errorResult,
          Outcome.isSucceeded]
    · rintro rfl
      simp [resolveClientOutcome, errorResult, Outcome.isFailed]
  · rintro pb err rfl hnot
    constructor
    · cases hs : (resolveClientOutcome cc cpc ch
          (.returned (some pb) err) mode recon).outcome.isSucceeded
      · rfl
      · obtain ⟨_, _, _, hmode, hi⟩ :=
          resolve_succeeded_inv cc cpc ch _ mode recon hs
        exact absurd ⟨hmode, hi⟩ hnot
    · rintro rfl rfl
      by_cases hmode : mode = "file"
      · cases hrc : recon.createNewImage with
        | none =>
            simp [resolveClientOutcome, handleBackgroundRemoved, hmode, hrc,
              Outcome.isFailed]
        | some i => exact absurd ⟨hmode, i, hrc⟩ hnot
      · simp [resolveClientOutcome, handleBackgroundRemoved, hmode,
          Outcome.isFailed]

/-- Witness for C3 at a concrete input: a null decoded image with no
cancellation resolves to Failed and not Succeeded. -/
theorem succeeded_only_via_reconciliation_witness :
    (resolveClientOutcome false false false (.returned none (some "boom"))
        "file" ⟨none⟩).outcome.isSucceeded = false
    ∧ (resolveClientOutcome false false false (.returned none (some "boom"))
        "file" ⟨none⟩).outcome.isFailed = true := by
  have h := (succeeded_only_via_reconciliation false false false
    (.returned none (some "boom")) "file" ⟨none⟩).2.1 (some "boom") rfl
  exact ⟨h.1, h.2 rfl⟩

/-- C5 (amended): once cancellation is observed at every read that handles
the client's outcome, no Failed or Succeeded outcome is delivered, no
callback fires, and a decoded result is discarded rather than reconciled;
a normal client return resolves to Cancelled through `_handle_cancelled`,
but a raising client is swallowed with no terminal handling at all — the
processing flag is never reset. -/
theorem cancellation_precedence :
    ∀ (call : CallOutcome) (mode : String) (recon : ReconEnv)
      (cc cpc ch : Bool),
      cc = true → cpc = true → ch = true →
      (resolveClientOutcome cc cpc ch call mode recon).outcome.isFailed
          = false
      ∧ (resolveClientOutcome cc cpc ch call mode recon).outcome.isSucceeded
          = false
      ∧ (resolveClientOutcome cc cpc ch call mode recon).errorDelivered = none
      ∧ (resolveClientOutcome cc cpc ch call mode recon).successDelivered
          = false
      ∧ (resolveClientOutcome cc cpc ch call mode recon).reconInvoked = false
      ∧ (∀ pb err, call = .returned pb err →
          (resolveClientOutcome cc cpc ch call mode recon).outcome
            = .cancelled)
      ∧ (∀ m, call = .raised m →
          (resolveClientOutcome cc cpc ch call mode recon).outcome
              = .swallowed
          ∧ (resolveClientOutcome cc cpc ch call mode recon).finalProcessing
              = true) := by
  rintro call mode recon cc cpc ch rfl rfl rfl
  cases call <;>
    simp [resolveClientOutcome, swallowedResult, cancelledResult,
      Outcome.isFailed, Outcome.isSucceeded]

/-- Witness for C5 amended at a concrete input: a decoded result arriving
after cancellation is discarded and the request resolves to Cancelled. -/
theorem cancellation_precedence_witness :
    (resolveClientOutcome true true true
        (.returned (some ⟨4, 4, true⟩) none) "file" ⟨none⟩).outcome
      = .cancelled :=
  (cancellation_precedence (.returned (some ⟨4, 4, true⟩) none) "file"
    ⟨none⟩ true true true rfl rfl rfl).2.2.2.2.2.1 (some ⟨4, 4, true⟩) none rfl

/-- Counterexample to C5 as stated: when the client raises after
cancellation was requested, the exception is swallowed with nothing
scheduled — the request never resolves to the Cancelled terminal state and
the processing flag stays set. -/
theorem cancelled_exception_not_resolved :
    (resolveClientOutcome true true true (.raised "boom") "file"
        ⟨none⟩).outcome ≠ Outcome.cancelled
    ∧ (resolveClientOutcome true true true (.raised "boom") "file"
        ⟨none⟩).finalProcessing = true := by
  constructor
  · simp [resolveClientOutcome, swallowedResult]
  · rfl

end DreamBG

namespace DreamBG

/-- C1 (code bug): the worker calls `remove_background` without the
required `model_name` argument, so the call raises TypeError before the
client body runs: no remote model is ever invoked for any request, and a
request with a non-empty API key and a bound drawable (and no cancellation)
terminates Failed with the TypeError message. -/
theorem worker_missing_model_argument :
    (∀ (sched : Nat → Bool) (env : ApiEnv) (key mode : String)
        (dr : Option Drawable) (recon : ReconEnv) (s : String),
      ApiEvent.ranModel s ∉
        (background_removal_worker sched env key mode dr recon).2)
    ∧ background_removal_worker (fun _ => false)
        ⟨some [7], .ok (some [[1]]), fun _ => none⟩ "key" "layer"
        (some ⟨"layer1"⟩) ⟨none⟩ =
      (errorResult missingModelArgMsg, []) := by
  constructor
  · intro sched env key mode dr recon s
    unfold background_removal_worker
    repeat' split
    all_goals simp [callRemoveBackground, workerCallArgs]
  · decide

/-- Witness for C1 at a concrete input: the bria model identifier never
appears among the invoked models of a full worker run. -/
theorem worker_missing_model_argument_witness :
    ApiEvent.ranModel "bria/remove-background" ∉
      (background_removal_worker (fun _ => false)
        ⟨some [7], .ok (some [[1]]), fun _ => none⟩ "key" "layer"
        (some ⟨"layer1"⟩) ⟨none⟩).2 :=
  worker_missing_model_argument.1 (fun _ => false)
    ⟨some [7], .ok (some [[1]]), fun _ => none⟩ "key" "layer"
    (some ⟨"layer1"⟩) ⟨none⟩ "bria/remove-background"

/-- C6 (amended): starting while already Processing is a pure no-op (state
unchanged, no thread, no callback); starting with no drawable bound spawns
no thread and leaves isProcessing false, but runs `_handle_error`, which
resets cancelRequested and invokes the registered error callback with the
no-layer message; otherwise the flags are set and the worker spawned. -/
theorem start_guard :
    ∀ (st : ThreadsState) (dr : Option Drawable) (hoe : Bool),
      (st.processing = true →
        start_background_removal_thread st dr hoe = ⟨st, false, none⟩)
      ∧ (st.processing = false → dr = none →
          start_background_removal_thread st dr hoe =
            ⟨⟨false, false⟩, false,
              if hoe then some noLayerMsg else none⟩)
      ∧ (st.processing = false → ∀ d, dr = some d →
          start_background_removal_thread st dr hoe =
            ⟨⟨true, false⟩, true, none⟩) := by
  intro st dr hoe
  refine ⟨?_, ?_, ?_⟩
  · intro h
    simp [start_background_removal_thread, h]
  · rintro h rfl
    simp [start_background_removal_thread, h]
  · rintro h d rfl
    simp [start_background_removal_thread, h]

/-- Witness for C6 amended at a concrete input: starting while Processing
changes nothing. -/
theorem start_guard_witness :
    start_background_removal_thread ⟨true, false⟩ none true =
      ⟨⟨true, false⟩, false, none⟩ :=
  (start_guard ⟨true, false⟩ none true).1 rfl

/-- Counterexample to C6 as stated: starting with no drawable bound (not
Processing, cancel previously requested, error callback registered) is not
a no-op — the error callback is delivered and the cancelRequested flag is
reset. -/
theorem start_no_drawable_not_noop :
    ¬ ((start_background_removal_thread ⟨false, true⟩ none
          true).errorDelivered = none
       ∧ (start_background_removal_thread ⟨false, true⟩ none true).state =
          ⟨false, true⟩) := by
  decide

end DreamBG
